import Mathlib

/-!
Verification of the multi-source search aggregation pipeline
(`search_service.py`: `SearchService.search_news`, `search_web`,
`search_academic`, `unified_search`) against its specification.

The embedding models:
  * JSON values as returned by `response.json()`;
  * Python `dict.get` (raising `AttributeError` on non-dicts) and
    pydantic field validation for `SearchResult`;
  * the network as an environment function from request parameters to an
    HTTP outcome (an exception, or a status code with a JSON-or-error body);
  * fallible code as `Except Unit`, with the fetcher's `except` handler
    totalising the computation.

Machine floats appear only as the constant relevance score `0.8`, used
solely for order comparisons, so scores are embedded as rationals.
-/

/-- A JSON value, as produced by parsing an HTTP response body.
Object field lists stand for already-parsed Python dicts, so keys are
unique and first-match lookup coincides with dict lookup. -/
inductive JsonV where
  | null
  | str (s : String)
  | num (q : ℚ)
  | bool (b : Bool)
  | arr (xs : List JsonV)
  | obj (fields : List (String × JsonV))

/-- `schemas.SearchResult` (schemas.py lines 42-50). -/
structure SearchResult where
  title : String
  url : String
  source : String
  snippet : String
  relevance_score : ℚ
  published_date : Option String
  author : Option String
  citations : Option Int
deriving DecidableEq, Repr

/-- The fixed news relevance score, the literal `0.8` at line 38, i.e. the
rational 4/5, given as a raw normalised fraction so that score comparisons
compute. -/
def score08 : ℚ := ⟨4, 5, by norm_num, by norm_num⟩

/-- Python `j.get(k, d)`: dict lookup with default; raises `AttributeError`
(modelled as `Except.error`) when `j` is not a dict. -/
def getAttr (j : JsonV) (k : String) (d : JsonV) : Except Unit JsonV :=
  match j with
  | .obj fields =>
      match fields.find? (fun p => p.1 == k) with
      | some p => .ok p.2
      | none => .ok d
  | _ => .error ()

/-- pydantic validation of a `str` field: accepts exactly JSON strings;
any other value (including `null`) raises a `ValidationError`. -/
def asStr : JsonV → Except Unit String
  | .str s => .ok s
  | _ => .error ()

/-- pydantic validation of an `Optional[str]` field: a string or `null`. -/
def asOptStr : JsonV → Except Unit (Option String)
  | .str s => .ok (some s)
  | .null => .ok none
  | _ => .error ()

/-- Construction of one `SearchResult` from one provider article
(search_service.py lines 33-42).  Field values are fetched with
`article.get(...)` defaults and then validated by the pydantic model;
any failure raises, which the caller's `except` turns into an empty
fetch. -/
def parseArticle (article : JsonV) : Except Unit SearchResult := do
  let tv ← getAttr article "title" (.str "")
  let t ← asStr tv
  let uv ← getAttr article "url" (.str "")
  let u ← asStr uv
  let sv ← getAttr article "source" (.obj [])
  let nv ← getAttr sv "name" (.str "News")
  let s ← asStr nv
  let dv ← getAttr article "description" (.str "")
  let d ← asStr dv
  let pv ← getAttr article "publishedAt" .null
  let p ← asOptStr pv
  let av ← getAttr article "author" .null
  let a ← asOptStr av
  .ok { title := t, url := u, source := s, snippet := d,
        relevance_score := score08, published_date := p, author := a,
        citations := none }

/-- The article loop (search_service.py lines 31-42): results are appended
left to right; the first failing entry raises, discarding the partial
list (the handler at line 44 catches and line 47 returns `[]`). -/
def parseArticles : List JsonV → Except Unit (List SearchResult)
  | [] => .ok []
  | a :: rest =>
    match parseArticle a with
    | .error e => .error e
    | .ok r =>
      match parseArticles rest with
      | .error e => .error e
      | .ok rs => .ok (r :: rs)

/-- Outcome of the single outbound HTTP GET: either a raised transport
exception, or a response carrying a status code and the result of
`response.json()` (which may itself raise on a non-JSON body). -/
inductive HttpOutcome where
  | exn
  | resp (status : Nat) (body : Except Unit JsonV)

/-- Configuration and network environment of the news fetcher: the
`NEWSAPI_KEY` setting, and the network's behaviour as a function of the
request parameters (query, pageSize, apiKey). -/
structure NewsEnv where
  NEWSAPI_KEY : String
  net : String → Nat → String → HttpOutcome

/-- The `try` block of `search_news` (lines 17-43): `.ok (some rs)`
models reaching the `return results` at line 43, `.ok none` models
falling out of the block without returning (non-200 status), and
`.error` models any raised exception.  A non-list `articles` value also
ends in the exception path (iterating it either raises directly or
yields elements on which `.get` raises), so it is modelled as an
error — the observable fetch result is `[]` either way. -/
def news_try (outcome : HttpOutcome) : Except Unit (Option (List SearchResult)) :=
  match outcome with
  | .exn => .error ()
  | .resp status body =>
    if status = 200 then
      match body with
      | .error e => .error e
      | .ok data =>
        match getAttr data "articles" (.arr []) with
        | .error e => .error e
        | .ok artsV =>
          match artsV with
          | .arr arts =>
            match parseArticles arts with
            | .error e => .error e
            | .ok results => .ok (some results)
          | _ => .error ()
    else .ok none

/-- `SearchService.search_news` (lines 11-47), instrumented: the first
component is the fetcher's outcome as seen by the caller (an uncaught
exception would be `.error`; the blanket `except` at line 44 makes every
branch `.ok`), the second counts outbound HTTP requests issued. -/
def search_newsT (env : NewsEnv) (query : String) (limit : Nat) :
    Except Unit (List SearchResult) × Nat :=
  if env.NEWSAPI_KEY = "" then (.ok [], 0)
  else
    match news_try (env.net query limit env.NEWSAPI_KEY) with
    | .ok (some results) => (.ok results, 1)
    | .ok none => (.ok [], 1)
    | .error _ => (.ok [], 1)

/-- The news fetcher as an `Except` computation (what the `await` in the
aggregator observes). -/
def search_newsE (env : NewsEnv) (query : String) (limit : Nat) :
    Except Unit (List SearchResult) :=
  (search_newsT env query limit).1

/-- Extraction of the value of a fetcher computation; the `.error` branch
is unreachable for the fetchers of this service. -/
def ex (e : Except Unit (List SearchResult)) : List SearchResult :=
  match e with
  | .ok rs => rs
  | .error _ => []

/-- The list of results returned by `search_news`. -/
def search_news (env : NewsEnv) (query : String) (limit : Nat) : List SearchResult :=
  ex (search_newsE env query limit)

/-- Number of outbound HTTP requests issued by one `search_news` call. -/
def newsCalls (env : NewsEnv) (query : String) (limit : Nat) : Nat :=
  (search_newsT env query limit).2

/-- `SearchService.search_web` (lines 50-53): stub, always empty. -/
def search_web (_query : String) (_limit : Nat) : List SearchResult := []

/-- `SearchService.search_academic` (lines 56-59): stub, always empty. -/
def search_academic (_query : String) (_limit : Nat) : List SearchResult := []

/-- The web stub as an `Except` computation. -/
def search_webE (query : String) (limit : Nat) : Except Unit (List SearchResult) :=
  .ok (search_web query limit)

/-- The academic stub as an `Except` computation. -/
def search_academicE (query : String) (limit : Nat) : Except Unit (List SearchResult) :=
  .ok (search_academic query limit)

/-- Descending comparison on relevance scores: `a` may stay before `b`.
This is the key `lambda x: x.relevance_score` with `reverse=True`
(line 82). -/
def scoreGE (a b : SearchResult) : Prop :=
  b.relevance_score ≤ a.relevance_score

instance : DecidableRel scoreGE :=
  fun a b => inferInstanceAs (Decidable (b.relevance_score ≤ a.relevance_score))

instance : IsTotal SearchResult scoreGE :=
  ⟨fun a b => le_total b.relevance_score a.relevance_score⟩

instance : IsTrans SearchResult scoreGE :=
  ⟨fun _ _ _ hab hbc => le_trans hbc hab⟩

/-- `all_results.sort(key=lambda x: x.relevance_score, reverse=True)`
(line 82): Python's list sort is stable, and `reverse=True` reverses the
comparison, not the list, so this is the stable descending sort —
embedded as insertion sort with the non-strict descending relation. -/
def sortResults (l : List SearchResult) : List SearchResult :=
  List.insertionSort scoreGE l

/-- Resolution of the `sources` default (lines 64-65). -/
def resolveSources (sources : Option (List String)) : List String :=
  sources.getD ["news", "web", "academic"]

/-- `SearchService.unified_search` (lines 62-83) as an `Except`
computation: each `await` propagates a fetcher exception, mirroring that
an uncaught fetcher error would abort the aggregator. -/
def unified_searchE (env : NewsEnv) (query : String)
    (sources : Option (List String)) (limit : Nat) :
    Except Unit (List SearchResult) :=
  let srcs := resolveSources sources
  match (if "news" ∈ srcs then search_newsE env query limit else .ok []) with
  | .error e => .error e
  | .ok newsPart =>
    match (if "web" ∈ srcs then search_webE query limit else .ok []) with
    | .error e => .error e
    | .ok webPart =>
      match (if "academic" ∈ srcs then search_academicE query limit else .ok []) with
      | .error e => .error e
      | .ok acadPart =>
        .ok (List.take limit (sortResults ((newsPart ++ webPart) ++ acadPart)))

/-- The list of results returned by `unified_search`. -/
def unified_search (env : NewsEnv) (query : String)
    (sources : Option (List String)) (limit : Nat) : List SearchResult :=
  ex (unified_searchE env query sources limit)

/-- The pre-sort concatenation of the requested fetchers' results
(`all_results` just before line 82). -/
def pooled (env : NewsEnv) (query : String)
    (sources : Option (List String)) (limit : Nat) : List SearchResult :=
  let srcs := resolveSources sources
  ((if "news" ∈ srcs then search_news env query limit else []) ++
    (if "web" ∈ srcs then search_web query limit else [])) ++
    (if "academic" ∈ srcs then search_academic query limit else [])

/-! Concrete fixtures for witnesses and counterexamples. -/

/-- A well-formed provider article titled "A". -/
def artA : JsonV := .obj [("title", .str "A"), ("url", .str "https://a")]

/-- A well-formed provider article titled "B". -/
def artB : JsonV := .obj [("title", .str "B"), ("url", .str "https://b")]

/-- A well-formed provider article titled "C". -/
def artC : JsonV := .obj [("title", .str "C"), ("url", .str "https://c")]

/-- Environment whose provider returns three well-formed articles. -/
def envABC : NewsEnv :=
  ⟨"test-key", fun _ _ _ => .resp 200 (.ok (.obj [("articles", .arr [artA, artB, artC])]))⟩

/-- The `SearchResult` the news fetcher builds from `artA`. -/
def resA : SearchResult := ⟨"A", "https://a", "News", "", score08, none, none, none⟩

/-- The `SearchResult` the news fetcher builds from `artB`. -/
def resB : SearchResult := ⟨"B", "https://b", "News", "", score08, none, none, none⟩

/-- The `SearchResult` the news fetcher builds from `artC`. -/
def resC : SearchResult := ⟨"C", "https://c", "News", "", score08, none, none, none⟩

/-- A result with relevance score 9/10, distinct from the news constant. -/
def rX : SearchResult := ⟨"X", "https://x", "X", "", ⟨9, 10, by norm_num, by norm_num⟩, none, none, none⟩

/-- Environment whose provider returns a success payload of two articles. -/
def envTwo : NewsEnv :=
  ⟨"k", fun _ _ _ => .resp 200 (.ok (.obj [("articles", .arr [artA, artB])]))⟩

/-- Environment whose provider returns one well-formed article followed by
a malformed (non-object) entry. -/
def envMixed : NewsEnv :=
  ⟨"k", fun _ _ _ => .resp 200 (.ok (.obj [("articles", .arr [artA, .str "junk"])]))⟩

/-- Environment with a configured key whose network raises. -/
def envExn : NewsEnv := ⟨"k", fun _ _ _ => .exn⟩

/-- Environment with no credential configured. -/
def envNoKey : NewsEnv := ⟨"", fun _ _ _ => .exn⟩

/-! Helper lemmas. -/

/-- `score08` is the decimal literal 0.8. -/
lemma score08_eq : score08 = 0.8 := by
  rw [score08, Rat.mk'_eq_divInt]
  rw [Rat.divInt_eq_div]; norm_num

/-- The instrumented news fetcher always yields an `.ok` outcome. -/
lemma search_newsT_fst_ok (env : NewsEnv) (q : String) (l : Nat) :
    ∃ rs, (search_newsT env q l).1 = .ok rs := by
  unfold search_newsT
  split
  · exact ⟨[], rfl⟩
  · split <;> exact ⟨_, rfl⟩

/-- The news fetcher computation equals `.ok` of its returned list. -/
lemma search_newsE_eq (env : NewsEnv) (q : String) (l : Nat) :
    search_newsE env q l = .ok (search_news env q l) := by
  obtain ⟨rs, h⟩ := search_newsT_fst_ok env q l
  unfold search_news ex search_newsE
  rw [h]

/-- The aggregator computation succeeds with the sorted, truncated pool. -/
lemma unified_searchE_eq_ok (env : NewsEnv) (q : String)
    (sources : Option (List String)) (limit : Nat) :
    unified_searchE env q sources limit =
      .ok (List.take limit (sortResults (pooled env q sources limit))) := by
  unfold unified_searchE pooled
  by_cases h1 : "news" ∈ resolveSources sources <;>
    by_cases h2 : "web" ∈ resolveSources sources <;>
      by_cases h3 : "academic" ∈ resolveSources sources <;>
        simp [h1, h2, h3, search_newsE_eq, search_webE, search_academicE,
          search_web, search_academic]

/-- `unified_search` is the first `limit` entries of the stably sorted pool. -/
lemma unified_search_eq (env : NewsEnv) (q : String)
    (sources : Option (List String)) (limit : Nat) :
    unified_search env q sources limit =
      List.take limit (sortResults (pooled env q sources limit)) := by
  unfold unified_search ex
  rw [unified_searchE_eq_ok]

/-- The sort produces a list sorted under the descending-score relation. -/
lemma sorted_sortResults (l : List SearchResult) : List.Sorted scoreGE (sortResults l) :=
  List.sorted_insertionSort scoreGE l

/-- The sort permutes its input. -/
lemma perm_sortResults (l : List SearchResult) : (sortResults l).Perm l :=
  List.perm_insertionSort scoreGE l

/-- The aggregator output is sorted under the descending-score relation. -/
lemma sorted_unified (env : NewsEnv) (q : String)
    (sources : Option (List String)) (limit : Nat) :
    List.Sorted scoreGE (unified_search env q sources limit) := by
  rw [unified_search_eq]
  exact List.Pairwise.sublist (List.take_sublist _ _) (sorted_sortResults _)

/-- On pairwise-distinct scores, the sorted pool is strictly descending. -/
lemma sorted_lt_of_distinct (L : List SearchResult)
    (h : L.Pairwise (fun a b => a.relevance_score ≠ b.relevance_score)) :
    List.Sorted (fun a b : SearchResult => b.relevance_score < a.relevance_score)
      (sortResults L) := by
  have hs : List.Pairwise scoreGE (sortResults L) := sorted_sortResults L
  have hp : (sortResults L).Pairwise (fun a b => a.relevance_score ≠ b.relevance_score) :=
    ((perm_sortResults L).pairwise_iff (fun h' => Ne.symm h')).2 h
  exact (hs.and hp).imp (fun hab => lt_of_le_of_ne hab.1 (Ne.symm hab.2))

/-- Inserting into a list does not disturb the entries of any one score class. -/
lemma filter_orderedInsert (a : SearchResult) (l : List SearchResult) (s : ℚ) :
    (List.orderedInsert scoreGE a l).filter (fun x => decide (x.relevance_score = s)) =
      if a.relevance_score = s then
        a :: l.filter (fun x => decide (x.relevance_score = s))
      else l.filter (fun x => decide (x.relevance_score = s)) := by
  induction l with
  | nil =>
    by_cases hpa : a.relevance_score = s <;>
      simp [List.orderedInsert, List.filter_cons, hpa]
  | cons b l ih =>
    simp only [List.orderedInsert]
    by_cases hab : scoreGE a b
    · rw [if_pos hab]
      by_cases hpa : a.relevance_score = s <;> simp [List.filter_cons, hpa]
    · rw [if_neg hab]
      by_cases hpa : a.relevance_score = s
      · have hpb : ¬ (b.relevance_score = s) := by
          intro hb
          exact hab (le_of_eq (hb.trans hpa.symm))
        simp [List.filter_cons, hpa, hpb, ih]
      · simp [List.filter_cons, hpa, ih]

/-- Stability of the sort: each score class keeps its original order. -/
lemma filter_sortResults (s : ℚ) (l : List SearchResult) :
    (sortResults l).filter (fun x => decide (x.relevance_score = s)) =
      l.filter (fun x => decide (x.relevance_score = s)) := by
  induction l with
  | nil => rfl
  | cons a l ih =>
    simp only [sortResults, List.insertionSort] at *
    rw [filter_orderedInsert]
    by_cases hpa : a.relevance_score = s <;> simp [hpa, ih, List.filter_cons]

/-- The article loop yields one result per payload entry when it succeeds. -/
lemma parseArticles_length :
    ∀ (arts : List JsonV) (rs : List SearchResult),
      parseArticles arts = .ok rs → rs.length = arts.length := by
  intro arts
  induction arts with
  | nil =>
    intro rs h
    cases h
    rfl
  | cons a rest ih =>
    intro rs h
    cases hpa : parseArticle a with
    | error e => simp [parseArticles, hpa] at h
    | ok r =>
      cases hrest : parseArticles rest with
      | error e => simp [parseArticles, hpa, hrest] at h
      | ok rs2 =>
        simp only [parseArticles, hpa, hrest, Except.ok.injEq] at h
        subst h
        simp [ih rs2 hrest]

/-- The aggregator reads `sources` only through the three membership tests. -/
lemma unified_search_sources_congr (env : NewsEnv) (q : String) (limit : Nat)
    (s1 s2 : List String)
    (hn : "news" ∈ s1 ↔ "news" ∈ s2) (hw : "web" ∈ s1 ↔ "web" ∈ s2)
    (ha : "academic" ∈ s1 ↔ "academic" ∈ s2) :
    unified_search env q (some s1) limit = unified_search env q (some s2) limit := by
  rw [unified_search_eq, unified_search_eq]
  have hpool : pooled env q (some s1) limit = pooled env q (some s2) limit := by
    simp only [pooled, resolveSources, Option.getD_some]
    rw [if_congr hn rfl rfl, if_congr hw rfl rfl, if_congr ha rfl rfl]
  rw [hpool]

/-! Claim theorems. -/

/-- C1: the sequence returned by `unified_search` is the first `limit`
entries of the pooled fetcher results sorted in descending order of
`relevance_score`; moreover, for any two fetcher result sequences with
pairwise disjoint scores, the sort of their union is a strictly
descending permutation of the pool, i.e. the descending-score ordering
of R1 ∪ R2. -/
theorem unified_search_sorted_desc :
    ∀ (env : NewsEnv) (q : String) (sources : Option (List String)) (limit : Nat),
      List.Sorted scoreGE (unified_search env q sources limit) ∧
      unified_search env q sources limit =
        List.take limit (sortResults (pooled env q sources limit)) ∧
      ∀ R1 R2 : List SearchResult,
        (R1 ++ R2).Pairwise (fun a b => a.relevance_score ≠ b.relevance_score) →
          (sortResults (R1 ++ R2)).Perm (R1 ++ R2) ∧
          List.Sorted (fun a b : SearchResult => b.relevance_score < a.relevance_score)
            (sortResults (R1 ++ R2)) := by
  intro env q sources limit
  refine ⟨sorted_unified env q sources limit, unified_search_eq env q sources limit, ?_⟩
  intro R1 R2 hdist
  exact ⟨perm_sortResults _, sorted_lt_of_distinct _ hdist⟩

/-- Witness for C1 at a concrete pool with disjoint scores. -/
theorem unified_search_sorted_desc_witness :
    (sortResults ([rX] ++ [resB])).Perm ([rX] ++ [resB]) ∧
      List.Sorted (fun a b : SearchResult => b.relevance_score < a.relevance_score)
        (sortResults ([rX] ++ [resB])) :=
  (unified_search_sorted_desc envABC "climate" none 5).2.2 [rX] [resB] (by decide)

/-- C2: the sort underlying `unified_search` is stable — each
equal-score class keeps its pre-sort concatenation order — and on the
concrete scenario of three tied news results with empty stubs,
`unified_search` with limit 2 returns exactly the first two in original
order. -/
theorem unified_search_stable :
    ∀ (env : NewsEnv) (q : String) (sources : Option (List String)) (limit : Nat) (s : ℚ),
      (sortResults (pooled env q sources limit)).filter
          (fun x => decide (x.relevance_score = s)) =
        (pooled env q sources limit).filter (fun x => decide (x.relevance_score = s)) ∧
      unified_search env q sources limit =
        List.take limit (sortResults (pooled env q sources limit)) ∧
      unified_search envABC "climate" (some ["news", "web", "academic"]) 2 = [resA, resB] := by
  intro env q sources limit s
  exact ⟨filter_sortResults s _, unified_search_eq env q sources limit, by decide⟩

/-- C3: the aggregator output never exceeds the requested limit and is
exactly the first `limit` entries of the sorted pool. -/
theorem unified_search_truncated :
    ∀ (env : NewsEnv) (q : String) (sources : Option (List String)) (limit : Nat),
      (unified_search env q sources limit).length ≤ limit ∧
      unified_search env q sources limit =
        List.take limit (sortResults (pooled env q sources limit)) := by
  intro env q sources limit
  refine ⟨?_, unified_search_eq env q sources limit⟩
  rw [unified_search_eq]
  exact List.length_take_le limit _

/-- C4: no fetcher ever surfaces an error to its caller — each fetcher
computation is `.ok` of its returned list, a failing news `try` block
degrades to the empty list, and consequently the aggregator computation
never errors. -/
theorem fetchers_never_throw :
    ∀ (env : NewsEnv) (q : String) (limit : Nat) (sources : Option (List String)),
      search_newsE env q limit = .ok (search_news env q limit) ∧
      search_webE q limit = .ok [] ∧
      search_academicE q limit = .ok [] ∧
      unified_searchE env q sources limit = .ok (unified_search env q sources limit) ∧
      ∀ e, news_try (env.net q limit env.NEWSAPI_KEY) = .error e →
        search_news env q limit = [] := by
  intro env q limit sources
  refine ⟨search_newsE_eq env q limit, rfl, rfl, ?_, ?_⟩
  · rw [unified_searchE_eq_ok, unified_search_eq]
  · intro e he
    by_cases hk : env.NEWSAPI_KEY = "" <;>
      simp [search_news, search_newsE, search_newsT, ex, hk, he]

/-- Witness for C4 at an environment whose network raises. -/
theorem fetchers_never_throw_witness :
    search_news envExn "q" 3 = [] :=
  (fetchers_never_throw envExn "q" 3 none).2.2.2.2 () rfl

/-- C5 counterexample: against a success payload carrying two articles,
`search_news` with limit 1 returns both — the fetcher applies no local
truncation, so its output can exceed `limit`. -/
theorem search_news_can_exceed_limit :
    (search_news envTwo "q" 1).length = 2 ∧
      ¬ ((search_news envTwo "q" 1).length ≤ 1) := by
  decide

/-- C5 amended: on a successful provider response the news fetcher maps
every entry of the payload's article list — its output length equals the
article count regardless of `limit`; `limit` is only forwarded to the
provider as the requested page size. -/
theorem search_news_maps_whole_payload :
    ∀ (env : NewsEnv) (q : String) (limit : Nat) (data : JsonV) (arts : List JsonV)
      (rs : List SearchResult),
      env.NEWSAPI_KEY ≠ "" →
      env.net q limit env.NEWSAPI_KEY = .resp 200 (.ok data) →
      getAttr data "articles" (.arr []) = .ok (.arr arts) →
      parseArticles arts = .ok rs →
      search_news env q limit = rs ∧ rs.length = arts.length := by
  intro env q limit data arts rs hk hnet hart hparse
  refine ⟨?_, parseArticles_length arts rs hparse⟩
  simp [search_news, search_newsE, search_newsT, ex, hk, news_try, hnet, hart, hparse]

/-- Witness for C5 amended: two articles yield two results even at limit 5. -/
theorem search_news_maps_whole_payload_witness :
    search_news envTwo "q" 5 = [resA, resB] ∧
      ([resA, resB] : List SearchResult).length = [artA, artB].length :=
  search_news_maps_whole_payload envTwo "q" 5
    (.obj [("articles", .arr [artA, artB])]) [artA, artB] [resA, resB]
    (by decide) rfl rfl rfl

/-- C6 counterexample: the payload holds a well-formed article (which
parses to `resA`) followed by a malformed entry, yet the fetch returns
the empty sequence instead of the well-formed mapping. -/
theorem malformed_entry_discards_all :
    parseArticle artA = .ok resA ∧ search_news envMixed "q" 5 = [] :=
  ⟨rfl, by decide⟩

/-- C6 amended: entries with merely missing keys are tolerated (defaults
fill in), but any entry the loop cannot parse raises, the blanket
handler catches, partial results are discarded, and the whole fetch
returns the empty sequence. -/
theorem malformed_entry_empties_whole_fetch :
    ∀ (env : NewsEnv) (q : String) (limit : Nat) (data : JsonV) (arts : List JsonV)
      (e : Unit),
      env.net q limit env.NEWSAPI_KEY = .resp 200 (.ok data) →
      getAttr data "articles" (.arr []) = .ok (.arr arts) →
      parseArticles arts = .error e →
      search_news env q limit = [] ∧
      parseArticle (.obj []) =
        .ok { title := "", url := "", source := "News", snippet := "",
              relevance_score := score08, published_date := none, author := none,
              citations := none } := by
  intro env q limit data arts e hnet hart hparse
  refine ⟨?_, rfl⟩
  by_cases hk : env.NEWSAPI_KEY = "" <;>
    simp [search_news, search_newsE, search_newsT, ex, hk, news_try, hnet, hart, hparse]

/-- Witness for C6 amended at the mixed payload. -/
theorem malformed_entry_empties_whole_fetch_witness :
    search_news envMixed "q" 5 = [] ∧
      parseArticle (.obj []) =
        .ok { title := "", url := "", source := "News", snippet := "",
              relevance_score := score08, published_date := none, author := none,
              citations := none } :=
  malformed_entry_empties_whole_fetch envMixed "q" 5
    (.obj [("articles", .arr [artA, .str "junk"])]) [artA, .str "junk"] ()
    rfl rfl rfl

/-- C7: with an unset or empty `NEWSAPI_KEY`, `search_news` returns the
empty sequence without issuing any network request, and a news-only
`unified_search` returns the empty sequence without raising. -/
theorem empty_key_fail_open :
    ∀ (env : NewsEnv) (q : String) (limit : Nat),
      env.NEWSAPI_KEY = "" →
      search_news env q limit = [] ∧
      newsCalls env q limit = 0 ∧
      unified_search env q (some ["news"]) 5 = [] ∧
      unified_searchE env q (some ["news"]) 5 = .ok [] := by
  intro env q limit hk
  have h1 : ∀ n, search_news env q n = [] := by
    intro n
    simp [search_news, search_newsE, search_newsT, ex, hk]
  have hpool : pooled env q (some ["news"]) 5 = [] := by
    simp [pooled, resolveSources, h1, search_web, search_academic]
  refine ⟨h1 limit, ?_, ?_, ?_⟩
  · simp [newsCalls, search_newsT, hk]
  · rw [unified_search_eq, hpool]
    rfl
  · rw [unified_searchE_eq_ok, hpool]
    rfl

/-- Witness for C7 at an environment with no credential. -/
theorem empty_key_fail_open_witness :
    search_news envNoKey "q" 7 = [] ∧
      newsCalls envNoKey "q" 7 = 0 ∧
      unified_search envNoKey "q" (some ["news"]) 5 = [] ∧
      unified_searchE envNoKey "q" (some ["news"]) 5 = .ok [] :=
  empty_key_fail_open envNoKey "q" 7 rfl

/-- C8: a source name outside the three known providers is silently
ignored — inserting it anywhere in the source list leaves the output of
`unified_search` unchanged. -/
theorem unknown_sources_ignored :
    ∀ (env : NewsEnv) (q : String) (limit : Nat) (u : String) (s1 s2 : List String),
      u ≠ "news" → u ≠ "web" → u ≠ "academic" →
      unified_search env q (some (s1 ++ u :: s2)) limit =
        unified_search env q (some (s1 ++ s2)) limit := by
  intro env q limit u s1 s2 hn hw ha
  refine unified_search_sources_congr env q limit _ _ ?_ ?_ ?_
  · simp [List.mem_append, List.mem_cons, Ne.symm hn]
  · simp [List.mem_append, List.mem_cons, Ne.symm hw]
  · simp [List.mem_append, List.mem_cons, Ne.symm ha]

/-- Witness for C8: adding "bogus" after "news" changes nothing. -/
theorem unknown_sources_ignored_witness :
    unified_search envABC "climate" (some (["news"] ++ "bogus" :: [])) 5 =
      unified_search envABC "climate" (some (["news"] ++ [])) 5 :=
  unknown_sources_ignored envABC "climate" 5 "bogus" ["news"] []
    (by decide) (by decide) (by decide)

/-- C9: the aggregator fabricates nothing — every element of the output
is an element of the result list of an invoked fetcher; in particular a
news-only search can only carry news-fetcher results, never stub ones. -/
theorem results_from_invoked_fetchers :
    ∀ (env : NewsEnv) (q : String) (sources : Option (List String)) (limit : Nat)
      (r : SearchResult),
      r ∈ unified_search env q sources limit →
      ("news" ∈ resolveSources sources ∧ r ∈ search_news env q limit) ∨
      ("web" ∈ resolveSources sources ∧ r ∈ search_web q limit) ∨
      ("academic" ∈ resolveSources sources ∧ r ∈ search_academic q limit) := by
  intro env q sources limit r hr
  rw [unified_search_eq] at hr
  have hr2 : r ∈ pooled env q sources limit :=
    ((perm_sortResults _).mem_iff).1 (List.mem_of_mem_take hr)
  simp only [pooled, List.mem_append] at hr2
  rcases hr2 with (h | h) | h
  · by_cases hc : "news" ∈ resolveSources sources
    · exact Or.inl ⟨hc, by rwa [if_pos hc] at h⟩
    · rw [if_neg hc] at h
      exact absurd h (List.not_mem_nil r)
  · by_cases hc : "web" ∈ resolveSources sources
    · exact Or.inr (Or.inl ⟨hc, by rwa [if_pos hc] at h⟩)
    · rw [if_neg hc] at h
      exact absurd h (List.not_mem_nil r)
  · by_cases hc : "academic" ∈ resolveSources sources
    · exact Or.inr (Or.inr ⟨hc, by rwa [if_pos hc] at h⟩)
    · rw [if_neg hc] at h
      exact absurd h (List.not_mem_nil r)

/-- Witness for C9: a concrete output element traced to the news fetcher. -/
theorem results_from_invoked_fetchers_witness :
    ("news" ∈ resolveSources (some ["news", "web", "academic"]) ∧
        resA ∈ search_news envABC "climate" 2) ∨
      ("web" ∈ resolveSources (some ["news", "web", "academic"]) ∧
        resA ∈ search_web "climate" 2) ∨
      ("academic" ∈ resolveSources (some ["news", "web", "academic"]) ∧
        resA ∈ search_academic "climate" 2) :=
  results_from_invoked_fetchers envABC "climate" (some ["news", "web", "academic"]) 2 resA
    (by decide)

/-- C10: `unified_search` depends on `sources` only through membership —
two source lists with the same members (any order or multiplicity)
produce exactly the same output. -/
theorem sources_membership_only :
    ∀ (env : NewsEnv) (q : String) (limit : Nat) (s1 s2 : List String),
      (∀ x, x ∈ s1 ↔ x ∈ s2) →
      unified_search env q (some s1) limit = unified_search env q (some s2) limit := by
  intro env q limit s1 s2 h
  exact unified_search_sources_congr env q limit s1 s2 (h _) (h _) (h _)

/-- Witness for C10: permuted and duplicated source lists coincide. -/
theorem sources_membership_only_witness :
    unified_search envABC "climate" (some ["web", "news", "news"]) 2 =
      unified_search envABC "climate" (some ["news", "web"]) 2 :=
  sources_membership_only envABC "climate" 2 ["web", "news", "news"] ["news", "web"]
    (fun x => by simp [List.mem_cons]; tauto)
